import Mathlib

set_option maxHeartbeats 1000000

/-!
Verification development for the autoparts conversational-commerce bot.

The definitions below are a shallow embedding of the Python source:
  - src/app.py           (conversation state machine and queue logic)
  - src/agent/approval.py (owner approval flow)
  - src/agent/recommender.py (option building and pricing)
  - src/agent/sourcing.py (supplier fan-out result assembly)
  - src/agent/parser.py  (option-choice interpretation)
  - src/utils/followup.py (deferred reminder timers)

External collaborators (the Claude NLU calls, the network suppliers, the
WhatsApp transport) are modelled as oracle parameters or event logs; exact
numeric values are carried as rationals, abstracting IEEE-754 floats.
-/

/-- A RequestItem: one requested part plus vehicle descriptor.  In
src/app.py `_enqueue_requests` each item is a dict with exactly the four
keys part, make, model, year; an absent or unknown field is stored as the
empty string. -/
structure Req where
  part : String
  make : String
  model : String
  year : String
  deriving Repr, DecidableEq

/-- Python truthiness of a string field: `req.get(f)` is truthy iff the
field is a non-empty string. -/
def fieldTruthy (s : String) : Bool := s != ""

/-- Leading and trailing whitespace removal on a character list. -/
def trimChars (cs : List Char) : List Char :=
  ((cs.dropWhile Char.isWhitespace).reverse.dropWhile Char.isWhitespace).reverse

/-- Python str.strip(). -/
def pyTrim (s : String) : String := String.mk (trimChars s.toList)

/-- Python str.lower() (ASCII lowering; the phrase tables are already
lower-case). -/
def pyLower (s : String) : String := String.mk (s.toList.map Char.toLower)

/-- Python str.startswith(pre). -/
def pyStartsWith (s pre : String) : Bool := pre.toList.isPrefixOf s.toList

/-- src/app.py `_req_complete`: all four fields truthy. -/
def req_complete (r : Req) : Bool :=
  fieldTruthy r.part && fieldTruthy r.make && fieldTruthy r.model && fieldTruthy r.year

/-- src/app.py `_queue_all_complete`: a non-empty queue with every item
complete. -/
def queue_all_complete (q : List Req) : Bool :=
  !q.isEmpty && q.all req_complete

/-- A field update as produced by the extraction collaborators
(extract fields / parse_correction): for each of the four keys, possibly a
new value.  Keys other than the four are ignored by `_apply_to_queue` and
are therefore not modelled. -/
structure Update where
  part : Option String
  make : Option String
  model : Option String
  year : Option String
  deriving Repr, DecidableEq

/-- One field of the inner loop of src/app.py `_apply_to_queue`: the item's
field is overwritten only when the update value is truthy and the item's
field is empty; the stored value is str(v).strip(). -/
def mergeField (cur : String) (v : Option String) : String :=
  match v with
  | none => cur
  | some s => if fieldTruthy s && cur = "" then pyTrim s else cur

/-- The effect of `_apply_to_queue`'s inner loop on a single item. -/
def mergeItem (r : Req) (u : Update) : Req :=
  { part := mergeField r.part u.part
    make := mergeField r.make u.make
    model := mergeField r.model u.model
    year := mergeField r.year u.year }

/-- src/app.py `_apply_to_queue`: apply the field update to every incomplete
item of the queue (vehicle info is shared); complete items are skipped. -/
def apply_to_queue : List Req → Update → List Req
  | [], _ => []
  | r :: rs, u => (if req_complete r then r else mergeItem r u) :: apply_to_queue rs u

/-- The first incomplete item of the queue, used by `_known_from_queue` and
`_missing_from_queue` in src/app.py. -/
def firstIncomplete (q : List Req) : Option Req :=
  q.find? (fun r => !req_complete r)

/-- Truthiness of the dict returned by src/app.py `_known_from_queue`: it is
non-empty iff some incomplete item exists and its first one has at least one
truthy field. -/
def knownNonempty (q : List Req) : Bool :=
  match firstIncomplete q with
  | none => false
  | some r => fieldTruthy r.part || fieldTruthy r.make || fieldTruthy r.model || fieldTruthy r.year

/-- src/app.py `_missing_from_queue`: names of the empty fields of the first
incomplete item, in the fixed order part, make, model, year. -/
def missing_from_queue (q : List Req) : List String :=
  match firstIncomplete q with
  | none => []
  | some r =>
      (if r.part = "" then ["part"] else []) ++
      (if r.make = "" then ["make"] else []) ++
      (if r.model = "" then ["model"] else []) ++
      (if r.year = "" then ["year"] else [])

/-- A record returned by the multi-item extraction collaborator
(parse_request_multi); each of the four fields may be absent. -/
structure ParsedReq where
  part : Option String
  make : Option String
  model : Option String
  year : Option String
  deriving Repr, DecidableEq

/-- Python `str(new_req.get(k) or "").strip()` from `_enqueue_requests`:
a falsy value becomes the empty string, a truthy one is stripped. -/
def pyStrOrEmpty (v : Option String) : String :=
  match v with
  | none => ""
  | some s => if s = "" then "" else pyTrim s

/-- src/app.py `_enqueue_requests`: append each parsed request as a fresh
item at the end of the queue. -/
def enqueue_requests (q : List Req) (new : List ParsedReq) : List Req :=
  q ++ new.map (fun p =>
    { part := pyStrOrEmpty p.part, make := pyStrOrEmpty p.make,
      model := pyStrOrEmpty p.model, year := pyStrOrEmpty p.year })

/-- src/app.py GREETINGS. -/
def GREETINGS : List String :=
  ["hola", "buenas", "buenos dias", "buenos días", "buenas tardes",
   "buenas noches", "hi", "hello", "hey"]

/-- src/app.py SECONDARY_GREETINGS. -/
def SECONDARY_GREETINGS : List String :=
  ["que tal", "qué tal", "como estas", "cómo estás",
   "como estás", "cómo estas", "todo bien", "que hay"]

/-- src/app.py WAIT_PHRASES. -/
def WAIT_PHRASES : List String :=
  ["dame un segundo", "un momento", "un seg", "espera", "espérate",
   "ahorita te digo", "ahorita", "déjame revisar", "dejame revisar",
   "déjame ver", "dejame ver", "ya vuelvo", "un momentito"]

/-- src/app.py ACK_PHRASES. -/
def ACK_PHRASES : List String :=
  ["ok", "okey", "okay", "entendido", "perfecto", "listo", "bueno",
   "ah ok", "ah okey", "ya veo", "ya", "claro", "dale", "va",
   "de acuerdo", "10 puntos", "excelente", "genial"]

/-- src/app.py VAGUE_INTENT. -/
def VAGUE_INTENT : List String :=
  ["si necesito", "sí necesito", "necesito unas", "necesito algo",
   "busco unas", "quiero unas", "quiero una", "quiero un",
   "tengo que buscar", "necesito piezas", "necesito repuestos",
   "necesito varios", "si tengo", "sí tengo", "tengo varios",
   "tengo unas", "no entiendo", "no sé cómo", "no se como",
   "si", "sí"]

/-- src/app.py PART_KEYWORDS. -/
def PART_KEYWORDS : List String :=
  ["pieza", "repuesto", "parte", "necesito", "neceisto", "nececito",
   "busco", "quiero", "tienen", "tienes", "hay ", "consiguen"]

/-- src/app.py HUMAN_REQUEST. -/
def HUMAN_REQUEST : List String :=
  ["con alguien", "hablar con", "un agente", "una persona", "con una persona",
   "con un humano", "con el dueño", "con el encargado", "me pueden llamar",
   "me pueden contactar", "quiero hablar", "necesito hablar", "llamenme",
   "llámenme", "me llaman", "por favor alguien", "alguien me ayude",
   "alguien que trabaje"]

/-- src/app.py GOODBYE_PHRASES (a Python set; duplicates collapse). -/
def GOODBYE_PHRASES : List String :=
  ["gracias", "muchas gracias", "mil gracias", "ok gracias", "okey gracias",
   "gracias!", "gracias!!", "ty", "thanks", "thank you",
   "hasta luego", "hasta pronto", "bye", "chao", "chau", "adios", "adiós",
   "nos vemos", "cuídate", "que te vaya bien",
   "ya no necesito", "no gracias", "dejalo", "déjalo", "olvídalo", "olvidalo"]

/-- Python `message.lower().strip()`. -/
def pyLowerStrip (m : String) : String := pyTrim (pyLower m)

/-- Substring containment, Python `a in b` on strings. -/
def strContains (hay needle : String) : Bool :=
  hay.toList.tails.any (fun t => needle.toList.isPrefixOf t)

/-- src/app.py is_greeting. -/
def is_greeting (m : String) : Bool :=
  GREETINGS.any (fun g => pyStartsWith (pyLowerStrip m) g)

/-- src/app.py is_secondary_greeting. -/
def is_secondary_greeting (m : String) : Bool :=
  SECONDARY_GREETINGS.any (fun g => pyStartsWith (pyLowerStrip m) g)

/-- src/app.py is_wait. -/
def is_wait (m : String) : Bool :=
  WAIT_PHRASES.any (fun w => pyStartsWith (pyLowerStrip m) w)

/-- src/app.py is_ack. -/
def is_ack (m : String) : Bool :=
  ACK_PHRASES.contains (pyLowerStrip m)

/-- src/app.py is_vague_intent. -/
def is_vague_intent (m : String) : Bool :=
  VAGUE_INTENT.any (fun v => pyStartsWith (pyLowerStrip m) v) ||
  PART_KEYWORDS.any (fun k => strContains (pyLowerStrip m) k)

/-- src/app.py is_human_request. -/
def is_human_request (m : String) : Bool :=
  HUMAN_REQUEST.any (fun p => strContains (pyLowerStrip m) p)

/-- src/app.py is_goodbye. -/
def is_goodbye (m : String) : Bool :=
  GOODBYE_PHRASES.contains (pyLowerStrip m)

/-- src/app.py ConversationState. -/
inductive ConvState where
  | active
  | waiting
  | completed
  deriving Repr, DecidableEq

/-- One conversation record (src/app.py `_new_conversation`); `last_seen`
is wall-clock time and is not modelled. -/
structure Conv where
  state : ConvState
  request_queue : List Req
  confirming : Bool
  deriving Repr, DecidableEq

/-- One outbound side effect of process_customer_request; each constructor
stands for one send_whatsapp (or timer-cancellation) call site with the
arguments that reach the responder. -/
inductive Ev where
  | cancelFollowup
  | goodbyeMsg (midFlow : Bool)
  | responseMsg (situation : String)
  | missingPrompt (known : Req) (missing : List String) (isFirst : Bool)
  | queueSummary (queue : List Req)
  | escalationOwnerAlert
  deriving Repr, DecidableEq

/-- The result of one process_customer_request call: the surviving
conversation (none when it was popped), the outbound events in order, and
the live-session / pending-live-offer flags this call sets for the
customer. -/
structure ProcOut where
  conv : Option Conv
  sent : List Ev
  liveSession : Bool
  liveOffer : Bool
  deriving Repr, DecidableEq

/-- Python truthiness of the dict returned by the partial extraction: a
record with no keys at all is falsy and is treated like None by
`if partial:` in the source. -/
def updateTruthy (u : Update) : Bool :=
  u.part.isSome || u.make.isSome || u.model.isSome || u.year.isSome

/-- src/app.py `_send_queue_missing_prompt`: no send when nothing is
missing; otherwise one missing-fields prompt built from the first
incomplete item. -/
def missingPromptEvents (q : List Req) : List Ev :=
  let missing := missing_from_queue q
  if missing.isEmpty then []
  else
    let known := (firstIncomplete q).getD ⟨"", "", "", ""⟩
    let isFirst := q.length == 1 && known.make = "" && known.model = "" && known.year = ""
    [Ev.missingPrompt known missing isFirst]

/-- The completeness check ending process_customer_request (src/app.py
lines 499-505): if every queued item is complete, set confirming and send
the consolidated summary; otherwise prompt for the next missing field. -/
def finishRequest (conv : Conv) : ProcOut :=
  if queue_all_complete conv.request_queue then
    { conv := some { conv with confirming := true },
      sent := [Ev.queueSummary conv.request_queue],
      liveSession := false, liveOffer := false }
  else
    { conv := some conv, sent := missingPromptEvents conv.request_queue,
      liveSession := false, liveOffer := false }

/-- Shallow embedding of src/app.py process_customer_request.  The external
NLU collaborators are oracle parameters: `pm` is the list returned by
parse_request_multi, `ep` the record returned by the partial-field
extraction (consulted only when the known dict is truthy, as in the
source), `nh` the boolean returned by detect_needs_human.  Outbound sends
are recorded as events; `last_seen` updates are not modelled. -/
def process_customer_request (conv : Conv) (message : String)
    (pm : List ParsedReq) (ep : Option Update) (nh : Bool) : ProcOut :=
  let queue := conv.request_queue
  if is_goodbye message then
    { conv := none, sent := [Ev.cancelFollowup, Ev.goodbyeMsg (!queue.isEmpty)],
      liveSession := false, liveOffer := false }
  else if !pm.isEmpty then
    finishRequest { conv with request_queue := enqueue_requests queue pm }
  else if !queue.isEmpty then
    let fields : Option Update :=
      match (if knownNonempty queue then ep else none) with
      | some u => if updateTruthy u then some u else none
      | none => none
    match fields with
    | some u => finishRequest { conv with request_queue := apply_to_queue queue u }
    | none =>
        if is_wait message then
          { conv := some conv, sent := [Ev.responseMsg "wait_acknowledgment"],
            liveSession := false, liveOffer := false }
        else
          { conv := some conv, sent := missingPromptEvents queue,
            liveSession := false, liveOffer := false }
  else
    if is_human_request message then
      { conv := none,
        sent := [Ev.cancelFollowup, Ev.escalationOwnerAlert, Ev.responseMsg "human_request"],
        liveSession := true, liveOffer := false }
    else if is_greeting message then
      { conv := some conv, sent := [Ev.responseMsg "greeting"],
        liveSession := false, liveOffer := false }
    else if is_secondary_greeting message then
      { conv := some conv, sent := [Ev.responseMsg "secondary_greeting"],
        liveSession := false, liveOffer := false }
    else if is_wait message then
      { conv := some conv, sent := [Ev.responseMsg "wait_acknowledgment"],
        liveSession := false, liveOffer := false }
    else if is_ack message then
      { conv := some conv, sent := [Ev.responseMsg "ack"],
        liveSession := false, liveOffer := false }
    else if is_vague_intent message then
      { conv := some conv, sent := [Ev.responseMsg "vague_intent"],
        liveSession := false, liveOffer := false }
    else if nh then
      { conv := some conv, sent := [Ev.responseMsg "human_request"],
        liveSession := false, liveOffer := true }
    else
      { conv := some conv, sent := [Ev.responseMsg "unknown"],
        liveSession := false, liveOffer := false }

/-- One priced supplier offer (src/agent/recommender.py build_options
output). -/
structure POption where
  label : String
  supplier_name : String
  cost : ℚ
  suggested_price : ℚ
  margin : ℚ
  lead_time : String
  source : String
  notes : String
  deriving Repr, DecidableEq

/-- Model of Python round(x, 2): round half to even at two decimal places,
on exact rationals (IEEE-754 float representation error is abstracted). -/
def roundHalfEven (q : ℚ) : ℤ :=
  let f : ℤ := ⌊q⌋
  let frac : ℚ := q - (f : ℚ)
  if frac < 1/2 then f
  else if 1/2 < frac then f + 1
  else if f % 2 = 0 then f else f + 1

/-- Two-decimal rounding used throughout recommender.py. -/
def round2 (q : ℚ) : ℚ := (roundHalfEven (q * 100) : ℚ) / 100

/-- src/agent/recommender.py DEFAULT_MARKUP. -/
def DEFAULT_MARKUP : ℚ := 35/100

/-- src/agent/recommender.py calculate_price (build_options always calls it
with the default markup). -/
def calculate_price (cost : ℚ) : ℚ := round2 (cost * (1 + DEFAULT_MARKUP))

/-- src/agent/recommender.py calculate_margin. -/
def calculate_margin (cost price : ℚ) : ℚ := round2 (price - cost)

/-- One raw supplier result as consumed by build_options / source_parts; a
`none` numeric field is an absent dict key. -/
structure SupplierResult where
  supplier_name : String
  total_cost : Option ℚ
  price : Option ℚ
  lead_time : String
  source : String
  notes : String
  deriving Repr, DecidableEq

/-- Python `a or d` over an optional numeric field, where a present 0 is
falsy and falls through to the default. -/
def pyOrQ (a : Option ℚ) (d : ℚ) : ℚ :=
  match a with
  | none => d
  | some x => if x = 0 then d else x

/-- The sort key `x.get("total_cost") or x.get("price") or 999` used by
both source_parts and build_options' by_cost ordering. -/
def sortCostKey (r : SupplierResult) : ℚ := pyOrQ r.total_cost (pyOrQ r.price 999)

/-- The cost taken into an Option: `.get("total_cost") or .get("price") or 0`. -/
def optionCost (r : SupplierResult) : ℚ := pyOrQ r.total_cost (pyOrQ r.price 0)

/-- Numeric value of a run of decimal digit characters. -/
def digitsToNat (cs : List Char) : Nat :=
  cs.foldl (fun n c => 10 * n + (c.toNat - 48)) 0

/-- First maximal run of digits in a character list (re.findall r'\d+'
first match), if any. -/
def firstNumber : List Char → Option Nat
  | [] => none
  | c :: cs =>
      if c.isDigit then some (digitsToNat ((c :: cs).takeWhile Char.isDigit))
      else firstNumber cs

/-- src/agent/recommender.py parse_lead_days: the first number occurring in
the lead-time string, else 99. -/
def parse_lead_days (lead : String) : Nat :=
  (firstNumber lead.toList).getD 99

/-- The supplier-name de-duplication loop of build_options: first
occurrence wins. -/
def dedupeBySupplier : List SupplierResult → List String → List SupplierResult
  | [], _ => []
  | r :: rs, seen =>
      if seen.contains r.supplier_name then dedupeBySupplier rs seen
      else r :: dedupeBySupplier rs (r.supplier_name :: seen)

/-- Python's stable sorted() by the cost key. -/
def sortByCost (l : List SupplierResult) : List SupplierResult :=
  List.insertionSort (fun a b => sortCostKey a ≤ sortCostKey b) l

/-- Python's stable sorted() by parsed lead-time days. -/
def sortBySpeed (l : List SupplierResult) : List SupplierResult :=
  List.insertionSort (fun a b => parse_lead_days a.lead_time ≤ parse_lead_days b.lead_time) l

/-- One candidate appended by build_options: the shared field computation
for all three labels. -/
def mkOption (label : String) (r : SupplierResult) : POption :=
  let cost := optionCost r
  let sp := calculate_price cost
  { label := label, supplier_name := r.supplier_name, cost := cost,
    suggested_price := sp, margin := calculate_margin cost sp,
    lead_time := r.lead_time, source := r.source, notes := r.notes }

/-- src/agent/recommender.py build_options: de-duplicate by supplier,
pick cheapest, fastest (if a distinct supplier), and one alternative
(next-cheapest supplier not already chosen). -/
def build_options (results : List SupplierResult) : List POption :=
  if results.isEmpty then []
  else
    let unique := dedupeBySupplier results []
    let byCost := sortByCost unique
    let bySpeed := sortBySpeed unique
    let step1 : List POption × List String :=
      match byCost with
      | [] => ([], [])
      | ch :: _ => ([mkOption "💰 Más económica" ch], [ch.supplier_name])
    let step2 : List POption × List String :=
      match bySpeed with
      | [] => step1
      | f :: _ =>
          if step1.2.contains f.supplier_name then step1
          else (step1.1 ++ [mkOption "⚡ Más rápida" f], f.supplier_name :: step1.2)
    let alt : List POption :=
      match byCost.find? (fun r => !step2.2.contains r.supplier_name) with
      | none => []
      | some r => [mkOption "🔄 Alternativa" r]
    step2.1 ++ alt

/-- Shallow embedding of the result assembly of src/agent/sourcing.py
source_parts: `collected` is the list of successful synchronous supplier
results in future-collection order; the function returns them sorted by
the Python key `x.get("total_cost") or x.get("price") or 999`.  The worker
pool, per-call timeouts and the fire-and-forget WhatsApp dispatches are
I/O and are not modelled. -/
def source_parts (collected : List SupplierResult) : List SupplierResult :=
  List.insertionSort (fun a b => sortCostKey a ≤ sortCostKey b) collected

/-- A result lacking a cost: both numeric fields absent or falsy, so the
sort key falls through to the 999 sentinel. -/
def unpriced (r : SupplierResult) : Bool :=
  (match r.total_cost with | none => true | some x => x = 0) &&
  (match r.price with | none => true | some x => x = 0)

/-- Lookup in a Python dict modelled as an insertion-ordered association
list with unique keys. -/
def dictGet {α : Type} (m : List (String × α)) (k : String) : Option α :=
  (m.find? (fun p => p.1 == k)).map Prod.snd

/-- Python dict assignment: an existing key is updated in place (keeping
its position); a new key is appended at the end. -/
def dictSet {α : Type} (m : List (String × α)) (k : String) (v : α) : List (String × α) :=
  if m.any (fun p => p.1 == k) then m.map (fun p => if p.1 == k then (k, v) else p)
  else m ++ [(k, v)]

/-- Python dict.pop(k): remove the entry with key k. -/
def dictPop {α : Type} (m : List (String × α)) (k : String) : List (String × α) :=
  m.filter (fun p => p.1 != k)

/-- One PendingApproval record (src/agent/approval.py send_for_approval). -/
structure PendingApproval where
  customer_number : String
  parsed : Req
  options : List POption
  status : String
  deriving Repr, DecidableEq

/-- One PendingSelection record (created by handle_approval on success). -/
structure PendingSelection where
  options : List POption
  parsed : Req
  final_prices : List ℚ
  deriving Repr, DecidableEq

/-- The shared mutable maps handle_approval operates on. -/
structure ApprovalState where
  pending_approvals : List (String × PendingApproval)
  pending_selections : List (String × PendingSelection)
  approval_message_map : List (String × String)
  deriving Repr, DecidableEq

/-- The owner-facing reply returned by handle_approval; one constructor per
return site of the source, carrying the data interpolated into the
string. -/
inductive OwnerReply where
  | cancelled
  | noPending
  | parseError
  | disambiguation (pendingCount : Nat)
  | quoteSent (parsed : Req) (prices : List ℚ)
  deriving Repr, DecidableEq

/-- Side effects of handle_approval other than its return value. -/
inductive ApprovalEv where
  | unavailableNotice (customer : String)
  | cancelFollowupEv (customer : String)
  | cancelLongWaitEv (customer : String)
  | customerQuote (customer : String) (options : List POption) (parsed : Req) (prices : List ℚ)
  deriving Repr, DecidableEq

/-- The outcome of one handle_approval call.  `keyError` marks the
uncaught KeyError raised by `pending_approvals.pop(matched_customer)` when
the reply-to map names a customer with no pending approval. -/
inductive ApprovalResult where
  | ok (reply : OwnerReply) (st : ApprovalState) (sent : List ApprovalEv)
  | keyError (st : ApprovalState)
  deriving Repr, DecidableEq

/-- `message.replace(" ", "").split(",")` followed by float() on every
piece; `pf` is the float parser (Python's float is a library primitive, so
it is a parameter; theorems quantify over it). -/
def splitCharAux (sep : Char) : List Char → List Char → List (List Char)
  | [], acc => [acc.reverse]
  | c :: cs, acc =>
      if c = sep then acc.reverse :: splitCharAux sep cs []
      else splitCharAux sep cs (c :: acc)

def parsePrices (pf : String → Option ℚ) (msg : String) : Option (List ℚ) :=
  ((splitCharAux ',' (msg.toList.filter (fun c => c != ' ')) []).map String.mk).mapM pf

/-- Shallow embedding of src/agent/approval.py handle_approval. -/
def handle_approval (pf : String → Option ℚ) (message : String)
    (st : ApprovalState) (replied_to : Option String) : ApprovalResult :=
  let msg := pyLowerStrip message
  if msg = "cancelar" then
    match st.pending_approvals.getLast? with
    | some entry =>
        .ok .cancelled
          { st with pending_approvals := dictPop st.pending_approvals entry.1 }
          [.unavailableNotice entry.1]
    | none => .ok .noPending st []
  else
    match parsePrices pf msg with
    | none => .ok .parseError st []
    | some final_prices =>
        let step1 : Option String × List (String × String) :=
          match replied_to with
          | some rid =>
              if st.approval_message_map.isEmpty then (none, st.approval_message_map)
              else
                match dictGet st.approval_message_map rid with
                | some c => (some c, dictPop st.approval_message_map rid)
                | none => (none, st.approval_message_map)
          | none => (none, st.approval_message_map)
        let amap := step1.2
        let matched2 : Option String :=
          match step1.1 with
          | some c => some c
          | none =>
              (st.pending_approvals.find? (fun p =>
                  p.2.status == "awaiting_approval" &&
                  final_prices.length == p.2.options.length)).map Prod.fst
        let matched3 : Option String :=
          match matched2 with
          | some c => some c
          | none =>
              if st.pending_approvals.length == 1 then
                (st.pending_approvals.head?).map Prod.fst
              else none
        match matched3 with
        | none =>
            .ok (.disambiguation st.pending_approvals.length)
              { st with approval_message_map := amap } []
        | some cust =>
            match dictGet st.pending_approvals cust with
            | none => .keyError { st with approval_message_map := amap }
            | some pending =>
                .ok (.quoteSent pending.parsed final_prices)
                  { pending_approvals := dictPop st.pending_approvals cust
                    pending_selections := dictSet st.pending_selections pending.customer_number
                        ⟨pending.options, pending.parsed, final_prices⟩
                    approval_message_map := amap }
                  [.cancelFollowupEv pending.customer_number,
                   .cancelLongWaitEv pending.customer_number,
                   .customerQuote pending.customer_number pending.options pending.parsed final_prices]

/-- The send-side transport state: Meta message ids are opaque tokens,
modelled as "wamid.<n>" with a fresh counter; an id is never equal to a
message body. -/
structure SendState where
  counter : Nat
  deriving Repr, DecidableEq

/-- Model of send_whatsapp's return value: the id of the message just
sent. -/
def send_whatsapp_id (s : SendState) : String × SendState :=
  ("wamid." ++ toString s.counter, ⟨s.counter + 1⟩)

/-- Model of Python str() on the numeric values interpolated into owner
messages.  Exact float rendering is abstracted: an integral rational
renders without a decimal point, any other as num/den; the rendering never
collides with a "wamid." transport id. -/
def numToStr (q : ℚ) : String :=
  if q.den = 1 then toString q.num else toString q.num ++ "/" ++ toString q.den

/-- Replace every occurrence of `pat` in `cs` by `repl` (Python
str.replace on a non-empty pattern); the fuel argument only drives the
structural recursion and is always sufficient at the call site. -/
def replaceListFuel : Nat → List Char → List Char → List Char → List Char
  | 0, cs, _, _ => cs
  | _ + 1, [], _, _ => []
  | fuel + 1, c :: rest, pat, repl =>
      if pat ≠ [] ∧ pat.isPrefixOf (c :: rest) then
        repl ++ replaceListFuel fuel (rest.drop (pat.length - 1)) pat repl
      else c :: replaceListFuel fuel rest pat repl

/-- Python str.replace for a non-empty pattern. -/
def replaceList (cs pat repl : List Char) : List Char :=
  replaceListFuel (cs.length + 1) cs pat repl

/-- One option block of src/agent/recommender.py format_approval_message. -/
def formatOption (i : Nat) (opt : POption) : String :=
  "*Opción " ++ toString i ++ "* " ++ opt.label ++ "\n" ++
  "Proveedor: " ++ opt.supplier_name ++ "\n" ++
  "Costo: $" ++ numToStr opt.cost ++ "\n" ++
  "Precio sugerido: $" ++ numToStr opt.suggested_price ++ "\n" ++
  "Margen: $" ++ numToStr opt.margin ++ "\n" ++
  "Entrega: " ++ opt.lead_time ++ "\n\n"

/-- src/agent/recommender.py format_approval_message: the text of the
approval request sent to the owner. -/
def format_approval_message (options : List POption) (parsed : Req)
    (customer_number : String) : String :=
  let display := String.mk (replaceList customer_number.toList "whatsapp:".toList [])
  let header := "🔩 *Nueva solicitud*\n" ++ "Cliente: " ++ display ++ "\n" ++
      "Pieza: " ++ parsed.part ++ " — " ++ parsed.make ++ " " ++ parsed.model ++
      " " ++ parsed.year ++ "\n\n"
  let body := String.join (options.enum.map (fun p => formatOption (p.1 + 1) p.2))
  let example_prices :=
    String.intercalate "," (options.map (fun o => numToStr o.suggested_price))
  header ++ body ++ "━━━━━━━━━━━━━━━━\n" ++
    "Responde con precios finales separados por coma:\n" ++
    "Ejemplo: *" ++ example_prices ++ "*\n" ++
    "\nO escribe *cancelar* para no cotizar."

/-- Shallow embedding of src/agent/approval.py send_for_approval: registers
the pending approval keyed by customer and records the customer in
approval_message_map keyed by the approval message TEXT; the message id
returned by send_whatsapp is discarded by the source, so the returned id
(which is what the owner's reply-to context will carry) is never a key of
the map. -/
def send_for_approval (options : List POption) (parsed : Req)
    (customer_number : String) (st : ApprovalState) (ss : SendState) :
    ApprovalState × SendState × String :=
  let approval_message := format_approval_message options parsed customer_number
  let st' := { st with
    pending_approvals := dictSet st.pending_approvals customer_number
        ⟨customer_number, parsed, options, "awaiting_approval"⟩,
    approval_message_map := dictSet st.approval_message_map approval_message customer_number }
  let idAndSend := send_whatsapp_id ss
  (st', idAndSend.2, idAndSend.1)

/-- State of src/utils/followup.py: the `_timers` and `_long_timers` maps
from customer number to a live threading.Timer (identified by an id), the
ids whose Timer.cancel() was called, and a fresh-id counter. -/
structure FollowupState where
  timers : List (String × Nat)
  long_timers : List (String × Nat)
  cancelledTimers : List Nat
  nextId : Nat
  deriving Repr, DecidableEq

/-- src/utils/followup.py cancel_followup: pop the customer's timer if
present and cancel it; otherwise do nothing. -/
def cancel_followup (st : FollowupState) (n : String) : FollowupState :=
  match dictGet st.timers n with
  | some t => { st with timers := dictPop st.timers n,
                        cancelledTimers := t :: st.cancelledTimers }
  | none => st

/-- src/utils/followup.py cancel_long_wait_alert: same pattern on
`_long_timers`. -/
def cancel_long_wait_alert (st : FollowupState) (n : String) : FollowupState :=
  match dictGet st.long_timers n with
  | some t => { st with long_timers := dictPop st.long_timers n,
                        cancelledTimers := t :: st.cancelledTimers }
  | none => st

/-- src/utils/followup.py schedule_followup: cancel any previous timer,
then start and register a fresh one. -/
def schedule_followup (st : FollowupState) (n : String) : FollowupState :=
  let st := cancel_followup st n
  { st with timers := dictSet st.timers n st.nextId, nextId := st.nextId + 1 }

/-- src/utils/followup.py schedule_long_wait_alert (the request payload only
feeds the alert text). -/
def schedule_long_wait_alert (st : FollowupState) (n : String) : FollowupState :=
  let st := cancel_long_wait_alert st n
  { st with long_timers := dictSet st.long_timers n st.nextId, nextId := st.nextId + 1 }

/-- The `_send` body of a follow-up timer firing: it pops its own map entry
first, then sends the follow-up message (returned as the recipient
list). -/
def fire_followup (st : FollowupState) (n : String) : FollowupState × List String :=
  ({ st with timers := dictPop st.timers n }, [n])

/-- src/agent/parser.py _AFFIRMATIONS. -/
def AFFIRMATIONS : List String :=
  ["sí", "si", "dale", "ok", "okey", "ese", "ese mismo", "ese está bien",
   "ese me sirve", "ese jale", "ese ta bien", "ese tá bien", "ese pues",
   "bueno", "perfecto", "listo", "claro", "va", "yes", "sip", "eso",
   "correcto", "excelente", "genial"]

/-- Shallow embedding of src/agent/parser.py interpret_option_choice.  The
Claude call is an oracle: `llm` is none when the API call raised, otherwise
the raw reply text. -/
def interpret_option_choice (message : String) (options : List POption)
    (final_prices : List ℚ) (llm : Option String) : Option Nat :=
  let msg := pyTrim message
  let msgLower := pyLower msg
  if msg = "1" ∨ msg = "2" ∨ msg = "3" then
    let idx : Nat := if msg = "1" then 0 else if msg = "2" then 1 else 2
    if idx < options.length then some idx else none
  else if options.length == 1 &&
      (AFFIRMATIONS.contains msgLower ||
       AFFIRMATIONS.any (fun a => pyStartsWith msgLower (a ++ " "))) then
    some 0
  else
    match llm with
    | none => none
    | some raw0 =>
        let raw := pyTrim raw0
        if !raw.toList.isEmpty && raw.toList.all Char.isDigit then
          let idx : Int := (digitsToNat raw.toList : Int) - 1
          if 0 ≤ idx ∧ idx < (options.length : Int) then some idx.toNat else none
        else none

/-- A concrete decimal-literal parser standing in for Python float() when a
scenario needs to be evaluated: optional sign, then digits with an optional
fractional part.  Python float() accepts strictly more (exponents, inf,
nan); the theorems whose truth depends on the parser are quantified over
it, and this instance only instantiates witnesses. -/
def parseDecimal (s : String) : Option ℚ :=
  let cs := s.toList
  let signed : Bool × List Char :=
    match cs with
    | '-' :: rest => (true, rest)
    | '+' :: rest => (false, rest)
    | _ => (false, cs)
  let intPart := signed.2.takeWhile Char.isDigit
  let rest := signed.2.dropWhile Char.isDigit
  let withSign : ℚ → Option ℚ := fun v => some (if signed.1 then -v else v)
  match rest with
  | [] => if intPart.isEmpty then none else withSign (digitsToNat intPart : ℚ)
  | '.' :: fracCs =>
      let fracPart := fracCs.takeWhile Char.isDigit
      let rest2 := fracCs.dropWhile Char.isDigit
      if !rest2.isEmpty then none
      else if intPart.isEmpty && fracPart.isEmpty then none
      else withSign ((digitsToNat intPart : ℚ) +
        (digitsToNat fracPart : ℚ) / ((10 : ℚ) ^ fracPart.length))
  | _ => none

/-! ### Helper lemmas -/

theorem apply_to_queue_eq_map (q : List Req) (u : Update) :
    apply_to_queue q u = q.map (fun r => if req_complete r then r else mergeItem r u) := by
  induction q with
  | nil => rfl
  | cons r rs ih => simp [apply_to_queue, ih]

theorem queueSummary_not_mem_missingPromptEvents (q : List Req) (q' : List Req) :
    Ev.queueSummary q' ∉ missingPromptEvents q := by
  unfold missingPromptEvents
  by_cases h : (missing_from_queue q).isEmpty = true
  · simp [h]
  · simp [h]

theorem queue_all_complete_of_ne_nil (q : List Req) (h : q ≠ []) :
    queue_all_complete q = q.all req_complete := by
  unfold queue_all_complete
  cases q with
  | nil => exact absurd rfl h
  | cons a l => simp [List.isEmpty]

theorem finishRequest_spec (conv : Conv) (h : conv.request_queue ≠ []) :
    ∃ c', (finishRequest conv).conv = some c' ∧
      c'.request_queue = conv.request_queue ∧
      (Ev.queueSummary c'.request_queue ∈ (finishRequest conv).sent ↔
        c'.request_queue.all req_complete = true) ∧
      c'.confirming = (conv.confirming || conv.request_queue.all req_complete) := by
  unfold finishRequest
  rw [queue_all_complete_of_ne_nil conv.request_queue h]
  by_cases hall : conv.request_queue.all req_complete = true
  · refine ⟨{ conv with confirming := true }, by simp [hall], rfl, ?_, by simp [hall]⟩
    simp [hall]
  · rw [Bool.not_eq_true] at hall
    refine ⟨conv, by simp [hall], rfl, ?_, by simp [hall]⟩
    simp only [hall]
    constructor
    · intro hmem
      exact absurd hmem (queueSummary_not_mem_missingPromptEvents _ _)
    · intro hfalse
      exact absurd hfalse (by simp)

theorem process_append_path (conv : Conv) (message : String) (pm : List ParsedReq)
    (ep : Option Update) (nh : Bool)
    (hg : is_goodbye message = false) (hpm : pm ≠ []) :
    process_customer_request conv message pm ep nh =
      finishRequest { conv with request_queue := enqueue_requests conv.request_queue pm } := by
  unfold process_customer_request
  rw [hg]
  cases pm with
  | nil => exact absurd rfl hpm
  | cons p ps => simp [List.isEmpty]

theorem process_merge_path (conv : Conv) (message : String)
    (ep : Option Update) (u : Update) (nh : Bool)
    (hg : is_goodbye message = false) (hq : conv.request_queue ≠ [])
    (hk : knownNonempty conv.request_queue = true) (he : ep = some u)
    (hu : updateTruthy u = true) :
    process_customer_request conv message [] ep nh =
      finishRequest { conv with request_queue := apply_to_queue conv.request_queue u } := by
  unfold process_customer_request
  rw [hg, he]
  cases hcq : conv.request_queue with
  | nil => exact absurd hcq hq
  | cons r rs =>
      rw [hcq] at hk
      simp [List.isEmpty, hk, hu]

/-! ### Claim theorems -/

/-- C1: a RequestItem is complete iff all four of part, make, model, year
are non-empty; and after any append or merge performed by the customer
message handler, the confirming flag ends up true iff every RequestItem in
the (necessarily non-empty) queue is complete — with the consolidated
confirmation summary sent exactly in that case.  The flag part is stated
for a conversation that was not already confirming, which is what the
webhook guarantees on the text path (confirming conversations are diverted
to the confirmation sub-flow before this handler runs). -/
theorem C1_completeness_invariant :
    (∀ r : Req, req_complete r = true ↔
        (r.part ≠ "" ∧ r.make ≠ "" ∧ r.model ≠ "" ∧ r.year ≠ "")) ∧
    (∀ (conv : Conv) (message : String) (pm : List ParsedReq)
        (ep : Option Update) (nh : Bool),
      is_goodbye message = false →
      (pm ≠ [] ∨ (pm = [] ∧ conv.request_queue ≠ [] ∧
        knownNonempty conv.request_queue = true ∧
        (∃ u, ep = some u ∧ updateTruthy u = true))) →
      ∃ c', (process_customer_request conv message pm ep nh).conv = some c' ∧
        c'.request_queue ≠ [] ∧
        (Ev.queueSummary c'.request_queue ∈
            (process_customer_request conv message pm ep nh).sent ↔
          c'.request_queue.all req_complete = true) ∧
        (conv.confirming = false →
          (c'.confirming = true ↔ c'.request_queue.all req_complete = true))) := by
  constructor
  · intro r
    simp [req_complete, fieldTruthy, Bool.and_eq_true, bne_iff_ne, and_assoc]
  · intro conv message pm ep nh hg hcase
    rcases hcase with hpm | ⟨hpm, hq, hk, he⟩
    · rw [process_append_path conv message pm ep nh hg hpm]
      have hne : enqueue_requests conv.request_queue pm ≠ [] := by
        cases pm with
        | nil => exact absurd rfl hpm
        | cons p ps => simp [enqueue_requests]
      obtain ⟨c', h1, h2, h3, h4⟩ :=
        finishRequest_spec { conv with request_queue := enqueue_requests conv.request_queue pm } hne
      refine ⟨c', h1, ?_, h3, ?_⟩
      · rw [h2]; exact hne
      · intro hc
        rw [h4]
        simp [hc, h2]
    · obtain ⟨u, hu, hut⟩ := he
      subst hpm
      rw [process_merge_path conv message ep u nh hg hq hk hu hut]
      have hne : apply_to_queue conv.request_queue u ≠ [] := by
        rw [apply_to_queue_eq_map]
        simp [hq]
      obtain ⟨c', h1, h2, h3, h4⟩ :=
        finishRequest_spec { conv with request_queue := apply_to_queue conv.request_queue u } hne
      refine ⟨c', h1, ?_, h3, ?_⟩
      · rw [h2]; exact hne
      · intro hc
        rw [h4]
        simp [hc, h2]

/-- Witness for C1: a customer message carrying one fully specified part
appended to an empty queue triggers the confirmation summary and sets
confirming. -/
theorem C1_witness :
    ∃ c', (process_customer_request ⟨ConvState.active, [], false⟩
        "necesito un alternador para un hilux 2008"
        [⟨some "alternador", some "Toyota", some "Hilux", some "2008"⟩]
        none false).conv = some c' ∧
      c'.request_queue ≠ [] ∧
      (Ev.queueSummary c'.request_queue ∈
          (process_customer_request ⟨ConvState.active, [], false⟩
            "necesito un alternador para un hilux 2008"
            [⟨some "alternador", some "Toyota", some "Hilux", some "2008"⟩]
            none false).sent ↔
        c'.request_queue.all req_complete = true) ∧
      ((false : Bool) = false →
        (c'.confirming = true ↔ c'.request_queue.all req_complete = true)) :=
  C1_completeness_invariant.2 ⟨ConvState.active, [], false⟩
    "necesito un alternador para un hilux 2008"
    [⟨some "alternador", some "Toyota", some "Hilux", some "2008"⟩]
    none false (by decide) (Or.inl (by decide))

/-- C4 counterexample: with two incomplete items queued (alternador and
radiador, both without vehicle data) and a message that yields no new part
but extracts make = Toyota, the merge changes the SECOND item as well, so
it is false that every queue item other than the first incomplete item is
left unchanged. -/
theorem C4_counterexample :
    ((process_customer_request ⟨ConvState.active,
        [⟨"alternador", "", "", ""⟩, ⟨"radiador", "", "", ""⟩], false⟩
        "es para un toyota" [] (some ⟨none, some "Toyota", none, none⟩)
        false).conv.map Conv.request_queue) =
      some [⟨"alternador", "Toyota", "", ""⟩, ⟨"radiador", "Toyota", "", ""⟩] ∧
    [(⟨"alternador", "Toyota", "", ""⟩ : Req), ⟨"radiador", "Toyota", "", ""⟩][1]? ≠
      [(⟨"alternador", "", "", ""⟩ : Req), ⟨"radiador", "", "", ""⟩][1]? := by
  constructor
  · decide
  · decide

/-- C4 (amended): when a message yields no new part and partial-field
extraction finds fields, those fields are merged into EVERY incomplete item
of the queue; every complete item is left unchanged.  Stated on the merge
path of process_customer_request item by item. -/
theorem C4_amended (conv : Conv) (message : String) (ep : Option Update)
    (u : Update) (nh : Bool) (i : Nat)
    (hg : is_goodbye message = false) (hq : conv.request_queue ≠ [])
    (hk : knownNonempty conv.request_queue = true) (he : ep = some u)
    (hu : updateTruthy u = true) :
    ∃ c', (process_customer_request conv message [] ep nh).conv = some c' ∧
      c'.request_queue[i]? = (conv.request_queue[i]?).map
        (fun r => if req_complete r then r else mergeItem r u) := by
  rw [process_merge_path conv message ep u nh hg hq hk he hu]
  have hne : apply_to_queue conv.request_queue u ≠ [] := by
    rw [apply_to_queue_eq_map]
    simp [hq]
  obtain ⟨c', h1, h2, _, _⟩ :=
    finishRequest_spec { conv with request_queue := apply_to_queue conv.request_queue u } hne
  refine ⟨c', h1, ?_⟩
  rw [h2]
  show (apply_to_queue conv.request_queue u)[i]? = _
  rw [apply_to_queue_eq_map, List.getElem?_map]

/-- Witness for C4 (amended): the concrete two-item merge of the
counterexample, checked at index 1; the incomplete second item receives the
make field. -/
theorem C4_amended_witness :
    ∃ c', (process_customer_request ⟨ConvState.active,
        [⟨"alternador", "", "", ""⟩, ⟨"radiador", "", "", ""⟩], false⟩
        "es para un toyota" [] (some ⟨none, some "Toyota", none, none⟩)
        false).conv = some c' ∧
      c'.request_queue[1]? =
        (([⟨"alternador", "", "", ""⟩, ⟨"radiador", "", "", ""⟩] : List Req)[1]?).map
          (fun r => if req_complete r then r
            else mergeItem r ⟨none, some "Toyota", none, none⟩) :=
  C4_amended ⟨ConvState.active, [⟨"alternador", "", "", ""⟩, ⟨"radiador", "", "", ""⟩], false⟩
    "es para un toyota" (some ⟨none, some "Toyota", none, none⟩)
    ⟨none, some "Toyota", none, none⟩ false 1 (by decide) (by decide) (by decide) rfl rfl

/-- C5: merging a partial field update into a RequestItem never overwrites
a non-empty field — after the queue-wide merge, every field that was
non-empty keeps its exact value — and merging part=X, make=Y into an item
that already has part=X yields part=X, make=Y. -/
theorem C5_merge_nondestructive :
    (∀ (q : List Req) (u : Update) (i : Nat) (r r' : Req),
      q[i]? = some r → (apply_to_queue q u)[i]? = some r' →
      (r.part ≠ "" → r'.part = r.part) ∧ (r.make ≠ "" → r'.make = r.make) ∧
      (r.model ≠ "" → r'.model = r.model) ∧ (r.year ≠ "" → r'.year = r.year)) ∧
    apply_to_queue [⟨"X", "", "", ""⟩] ⟨some "X", some "Y", none, none⟩ =
      [⟨"X", "Y", "", ""⟩] := by
  constructor
  · intro q u i r r' hr hr'
    rw [apply_to_queue_eq_map, List.getElem?_map, hr] at hr'
    have hr'' : r' = if req_complete r then r else mergeItem r u := by
      simpa using hr'.symm
    subst hr''
    by_cases hc : req_complete r = true
    · simp [hc]
    · rw [Bool.not_eq_true] at hc
      simp only [hc, if_false]
      refine ⟨?_, ?_, ?_, ?_⟩ <;>
        · intro hne
          simp [mergeItem, mergeField, hne]
          split <;> rfl
  · decide

/-- Witness for C5: the non-destructive part evaluated on the concrete
single-item queue of the spec's example; part = X survives the merge. -/
theorem C5_witness :
    ((⟨"X", "", "", ""⟩ : Req).part ≠ "" →
      (⟨"X", "Y", "", ""⟩ : Req).part = (⟨"X", "", "", ""⟩ : Req).part) ∧
    ((⟨"X", "", "", ""⟩ : Req).make ≠ "" →
      (⟨"X", "Y", "", ""⟩ : Req).make = (⟨"X", "", "", ""⟩ : Req).make) ∧
    ((⟨"X", "", "", ""⟩ : Req).model ≠ "" →
      (⟨"X", "Y", "", ""⟩ : Req).model = (⟨"X", "", "", ""⟩ : Req).model) ∧
    ((⟨"X", "", "", ""⟩ : Req).year ≠ "" →
      (⟨"X", "Y", "", ""⟩ : Req).year = (⟨"X", "", "", ""⟩ : Req).year) :=
  C5_merge_nondestructive.1 [⟨"X", "", "", ""⟩] ⟨some "X", some "Y", none, none⟩ 0
    ⟨"X", "", "", ""⟩ ⟨"X", "Y", "", ""⟩ (by decide) (by decide)

/-- Every candidate of build_options computes its two price fields from its
cost in the same way (the shared mkOption computation). -/
theorem mkOption_pricing (l : String) (r : SupplierResult) :
    (mkOption l r).suggested_price = round2 ((mkOption l r).cost * (1 + 35/100)) ∧
    (mkOption l r).margin = round2 ((mkOption l r).suggested_price - (mkOption l r).cost) := by
  constructor <;> rfl

/-- Every member of a build_options result is an mkOption application. -/
theorem build_options_mem (results : List SupplierResult) (o : POption)
    (h : o ∈ build_options results) : ∃ l r, o = mkOption l r := by
  unfold build_options at h
  split at h
  · exact absurd h (List.not_mem_nil o)
  · simp only [List.mem_append] at h
    rcases h with h1 | h1
    · split at h1
      · split at h1
        · exact absurd h1 (List.not_mem_nil o)
        · exact ⟨_, _, (List.mem_singleton.mp h1)⟩
      · split at h1
        · split at h1
          · exact absurd h1 (List.not_mem_nil o)
          · exact ⟨_, _, (List.mem_singleton.mp h1)⟩
        · rcases List.mem_append.mp h1 with h2 | h2
          · split at h2
            · exact absurd h2 (List.not_mem_nil o)
            · exact ⟨_, _, (List.mem_singleton.mp h2)⟩
          · exact ⟨_, _, (List.mem_singleton.mp h2)⟩
    · split at h1
      · exact absurd h1 (List.not_mem_nil o)
      · exact ⟨_, _, (List.mem_singleton.mp h1)⟩

/-- C3: every Option generated by build_options has
suggested_price = round(cost * (1 + 0.35), 2) and
margin = round(suggested_price - cost, 2), with round modelled as
two-decimal half-to-even rounding on exact rationals. -/
theorem C3_option_pricing :
    ∀ (results : List SupplierResult) (o : POption), o ∈ build_options results →
      o.suggested_price = round2 (o.cost * (1 + 35/100)) ∧
      o.margin = round2 (o.suggested_price - o.cost) := by
  intro results o h
  obtain ⟨l, r, rfl⟩ := build_options_mem results o h
  exact mkOption_pricing l r

/-- Witness for C3: one concrete supplier result produces exactly the
cheapest option, whose fields satisfy the pricing identities. -/
theorem C3_witness :
    (mkOption "💰 Más económica" ⟨"S1", some 100, none, "3 días", "sheet", ""⟩ ∈
      build_options [⟨"S1", some 100, none, "3 días", "sheet", ""⟩]) ∧
    ((mkOption "💰 Más económica" ⟨"S1", some 100, none, "3 días", "sheet", ""⟩).suggested_price =
      round2 ((mkOption "💰 Más económica" ⟨"S1", some 100, none, "3 días", "sheet", ""⟩).cost *
        (1 + 35/100)) ∧
     (mkOption "💰 Más económica" ⟨"S1", some 100, none, "3 días", "sheet", ""⟩).margin =
      round2 ((mkOption "💰 Más económica" ⟨"S1", some 100, none, "3 días", "sheet", ""⟩).suggested_price -
        (mkOption "💰 Más económica" ⟨"S1", some 100, none, "3 días", "sheet", ""⟩).cost)) :=
  have hmem : mkOption "💰 Más económica" ⟨"S1", some 100, none, "3 días", "sheet", ""⟩ ∈
      build_options [⟨"S1", some 100, none, "3 días", "sheet", ""⟩] := by
    show _ ∈ build_options _
    rw [show build_options [⟨"S1", some 100, none, "3 días", "sheet", ""⟩] =
      [mkOption "💰 Más económica" ⟨"S1", some 100, none, "3 días", "sheet", ""⟩] from rfl]
    exact List.mem_singleton.mpr rfl
  ⟨hmem, C3_option_pricing [⟨"S1", some 100, none, "3 días", "sheet", ""⟩] _ hmem⟩

/-- C6 counterexample: the "large sentinel" for a missing cost is 999, so a
result priced at 1500 sorts AFTER the unpriced result — the unpriced result
does not sort last, refuting the claim that every result lacking a cost
sorts after all priced results. -/
theorem C6_counterexample :
    source_parts [⟨"A", some 1500, none, "5 días", "sheet", ""⟩,
                  ⟨"B", none, none, "2 días", "sheet", ""⟩] =
      [⟨"B", none, none, "2 días", "sheet", ""⟩,
       ⟨"A", some 1500, none, "5 días", "sheet", ""⟩] ∧
    unpriced ⟨"B", none, none, "2 días", "sheet", ""⟩ = true ∧
    unpriced ⟨"A", some 1500, none, "5 días", "sheet", ""⟩ = false := by
  refine ⟨?_, ?_, ?_⟩ <;> decide

/-- A result lacking a cost gets exactly the sentinel 999 as sort key. -/
theorem unpriced_key (r : SupplierResult) (h : unpriced r = true) :
    sortCostKey r = 999 := by
  unfold unpriced at h
  unfold sortCostKey pyOrQ
  rcases htc : r.total_cost with _ | x <;> rcases hp : r.price with _ | y <;>
    simp [htc, hp, Bool.and_eq_true] at h ⊢ <;> simp [h]

/-- C6 (amended): source_parts returns a permutation of the collected
results sorted ascending by the effective cost key (total_cost, else
price, else the sentinel 999, a present 0 falling through), and every
result lacking a cost sorts after all results whose key is strictly below
999 — but not necessarily after results priced at or above the
sentinel. -/
theorem C6_amended (collected : List SupplierResult) :
    List.Sorted (fun a b => sortCostKey a ≤ sortCostKey b) (source_parts collected) ∧
    List.Perm (source_parts collected) collected ∧
    List.Pairwise (fun a b => unpriced a = true →
      (unpriced b = true ∨ 999 ≤ sortCostKey b)) (source_parts collected) := by
  haveI htot : IsTotal SupplierResult (fun a b => sortCostKey a ≤ sortCostKey b) :=
    ⟨fun a b => le_total _ _⟩
  haveI htrans : IsTrans SupplierResult (fun a b => sortCostKey a ≤ sortCostKey b) :=
    ⟨fun _ _ _ hab hbc => le_trans hab hbc⟩
  have hsorted : List.Sorted (fun a b => sortCostKey a ≤ sortCostKey b)
      (source_parts collected) :=
    List.sorted_insertionSort _ collected
  refine ⟨hsorted, List.perm_insertionSort _ collected, ?_⟩
  refine hsorted.imp ?_
  intro a b hab hup
  by_cases hb : unpriced b = true
  · exact Or.inl hb
  · right
    have : sortCostKey a = 999 := unpriced_key a hup
    calc (999 : ℚ) = sortCostKey a := this.symm
      _ ≤ sortCostKey b := hab

/-! ### Concrete approval-flow scenario (used by C2 and C7) -/

def rS1 : SupplierResult := ⟨"S1", some 100, none, "3 días", "sheet", ""⟩

def rS2 : SupplierResult := ⟨"S2", some 200, none, "5 días", "sheet", ""⟩

def rS3 : SupplierResult := ⟨"S3", some 250, none, "1 día", "sheet", ""⟩

def reqA : Req := ⟨"alternador", "Toyota", "Hilux", "2008"⟩

def reqB : Req := ⟨"radiador", "Nissan", "Frontier", "2012"⟩

/-- Options built for customer A's request: exactly one option. -/
def optsA : List POption := build_options [rS1]

/-- Options built for customer B's request: exactly two options. -/
def optsB : List POption := build_options [rS2, rS3]

/-- Register A's approval on an empty state. -/
def c2Step1 := send_for_approval optsA reqA "A" ⟨[], [], []⟩ ⟨0⟩

/-- Then register B's approval; the returned id is that of B's
approval-request message sent to the owner. -/
def c2Step2 := send_for_approval optsB reqB "B" c2Step1.1 c2Step1.2.1

def c2State := c2Step2.1

/-- The message id the owner's reply-to context carries when replying to
B's approval request. -/
def c2ReplyId := c2Step2.2.2

/-- Re-register customer A (a new sourcing round for A) after B: Python
dict update keeps A at its original first position. -/
def c7Step3 := send_for_approval optsB reqA "A" c2State c2Step2.2.1

def c7State := c7Step3.1

/-- The customer a handle_approval side effect is addressed to. -/
def approvalEvCustomer : ApprovalEv → String
  | .unavailableNotice c => c
  | .cancelFollowupEv c => c
  | .cancelLongWaitEv c => c
  | .customerQuote c _ _ _ => c

def resultReply : ApprovalResult → Option OwnerReply
  | .ok r _ _ => some r
  | .keyError _ => none

def resultState : ApprovalResult → ApprovalState
  | .ok _ st _ => st
  | .keyError st => st

def resultSent : ApprovalResult → List ApprovalEv
  | .ok _ _ sent => sent
  | .keyError _ => []

/-- C2 (code bug): send_for_approval records the approval in
approval_message_map keyed by the approval message TEXT and discards the
message id returned by send_whatsapp, while handle_approval looks the map
up by the replied-to message id — so replying to an approval-request
message never selects the approval registered for it.  Concretely: A is
pending with 1 option and B with 2; the owner replies to B's
approval-request message (id "wamid.1") with the single price 150; the
reply-to lookup misses (the id is not a key of the map) and the
price-count fallback selects A instead of B. -/
theorem C2_reply_correlation_bug :
    c2ReplyId = "wamid.1" ∧
    (c2State.approval_message_map.map Prod.fst).contains "wamid.1" = false ∧
    c2State.pending_approvals.map Prod.fst = ["A", "B"] ∧
    resultReply (handle_approval parseDecimal "150" c2State (some c2ReplyId)) =
      some (.quoteSent reqA [150]) ∧
    (resultState (handle_approval parseDecimal "150" c2State
      (some c2ReplyId))).pending_approvals.map Prod.fst = ["B"] ∧
    (resultState (handle_approval parseDecimal "150" c2State
      (some c2ReplyId))).pending_selections.map Prod.fst = ["A"] ∧
    (resultSent (handle_approval parseDecimal "150" c2State
      (some c2ReplyId))).map approvalEvCustomer = ["A", "A", "A"] := by
  refine ⟨?_, ?_, ?_, ?_, ?_, ?_, ?_⟩ <;> decide

/-- C7 counterexample: after registering approvals for A, then B, then A
again (dict re-assignment keeps A first), the pending key order is
(A, B); "cancelar" removes and notifies B — the LAST KEY — although the
most recently registered pending approval is A's (which survives, still
holding the options of its latest registration). -/
theorem C7_counterexample :
    c7State.pending_approvals.map Prod.fst = ["A", "B"] ∧
    (dictGet c7State.pending_approvals "A").map (fun p => p.options.length) = some 2 ∧
    resultReply (handle_approval parseDecimal "cancelar" c7State none) = some .cancelled ∧
    (resultState (handle_approval parseDecimal "cancelar"
      c7State none)).pending_approvals.map Prod.fst = ["A"] ∧
    resultSent (handle_approval parseDecimal "cancelar" c7State none) =
      [.unavailableNotice "B"] := by
  refine ⟨?_, ?_, ?_, ?_, ?_⟩ <;> decide

/-- C7 (amended): "cancelar" removes the pending approval in the LAST
POSITION of the map's insertion order and notifies that customer (this is
the most recently registered one only when no already-pending customer was
re-registered in between); with zero pending approvals it returns the
no-pending reply and changes no state. -/
theorem C7_amended :
    (∀ (pf : String → Option ℚ) (st : ApprovalState) (entry : String × PendingApproval),
      st.pending_approvals.getLast? = some entry →
      handle_approval pf "cancelar" st none =
        .ok .cancelled
          { st with pending_approvals := dictPop st.pending_approvals entry.1 }
          [.unavailableNotice entry.1]) ∧
    (∀ (pf : String → Option ℚ) (st : ApprovalState),
      st.pending_approvals = [] →
      handle_approval pf "cancelar" st none = .ok .noPending st []) := by
  constructor
  · intro pf st entry hlast
    unfold handle_approval
    simp only [show pyLowerStrip "cancelar" = "cancelar" from rfl, if_pos, hlast]
  · intro pf st hnil
    unfold handle_approval
    simp only [show pyLowerStrip "cancelar" = "cancelar" from rfl, if_pos, hnil,
      List.getLast?_nil]

/-- Witness for C7 (amended): one pending approval for customer C is
cancelled and C notified; a second "cancelar" on the now-empty state
returns the no-pending reply. -/
theorem C7_witness :
    handle_approval parseDecimal "cancelar"
        ⟨[("C", ⟨"C", reqA, optsA, "awaiting_approval"⟩)], [], []⟩ none =
      .ok .cancelled
        ⟨dictPop [("C", ⟨"C", reqA, optsA, "awaiting_approval"⟩)] "C", [], []⟩
        [.unavailableNotice "C"] ∧
    handle_approval parseDecimal "cancelar" ⟨[], [], []⟩ none =
      .ok .noPending ⟨[], [], []⟩ [] :=
  ⟨C7_amended.1 parseDecimal ⟨[("C", ⟨"C", reqA, optsA, "awaiting_approval"⟩)], [], []⟩
      ("C", ⟨"C", reqA, optsA, "awaiting_approval"⟩) rfl,
   C7_amended.2 parseDecimal ⟨[], [], []⟩ rfl⟩

/-- C8: an owner message that is neither "cancelar" nor parseable as a
comma-separated list of numbers (after strip and lower-casing, as the
source applies) yields the corrective parse-error reply and leaves all
three maps exactly as they were, sending nothing; stated for every float
parser. -/
theorem C8_malformed_input :
    ∀ (pf : String → Option ℚ) (message : String) (st : ApprovalState)
      (rt : Option String),
      pyLowerStrip message ≠ "cancelar" →
      parsePrices pf (pyLowerStrip message) = none →
      handle_approval pf message st rt = .ok .parseError st [] := by
  intro pf message st rt hnc hpp
  unfold handle_approval
  simp only [if_neg hnc, hpp]

/-- Witness for C8: a free-text owner message is rejected with the
corrective reply and the state is untouched, with the pending map
non-empty. -/
theorem C8_witness :
    handle_approval parseDecimal "mañana te digo"
        ⟨[("C", ⟨"C", reqA, optsA, "awaiting_approval"⟩)], [], []⟩ (some "wamid.9") =
      .ok .parseError ⟨[("C", ⟨"C", reqA, optsA, "awaiting_approval"⟩)], [], []⟩ [] :=
  C8_malformed_input parseDecimal "mañana te digo"
    ⟨[("C", ⟨"C", reqA, optsA, "awaiting_approval"⟩)], [], []⟩ (some "wamid.9")
    (by decide) (by decide)

/-- Popping a key from a dict leaves no binding for that key. -/
theorem dictGet_dictPop {α : Type} (m : List (String × α)) (k : String) :
    dictGet (dictPop m k) k = none := by
  suffices hfind : List.find? (fun p => p.1 == k) (dictPop m k) = none by
    simp [dictGet, hfind]
  rw [List.find?_eq_none]
  intro x hx
  have hne := List.of_mem_filter hx
  simp only [bne_iff_ne] at hne
  simp [hne]

/-- C9: cancelling a follow-up (or long-wait) timer is idempotent and
total: a second cancellation, or one for a customer with no scheduled or
an already-fired timer, leaves the state exactly unchanged (and, being a
total function, never raises). -/
theorem C9_idempotent_cancellation :
    (∀ (st : FollowupState) (n : String),
      cancel_followup (cancel_followup st n) n = cancel_followup st n) ∧
    (∀ (st : FollowupState) (n : String), dictGet st.timers n = none →
      cancel_followup st n = st) ∧
    (∀ (st : FollowupState) (n : String),
      cancel_followup (fire_followup st n).1 n = (fire_followup st n).1) ∧
    (∀ (st : FollowupState) (n : String),
      cancel_long_wait_alert (cancel_long_wait_alert st n) n = cancel_long_wait_alert st n) ∧
    (∀ (st : FollowupState) (n : String), dictGet st.long_timers n = none →
      cancel_long_wait_alert st n = st) := by
  refine ⟨?_, ?_, ?_, ?_, ?_⟩
  · intro st n
    unfold cancel_followup
    rcases h : dictGet st.timers n with _ | t
    · simp [h]
    · simp [h, dictGet_dictPop]
  · intro st n h
    unfold cancel_followup
    simp [h]
  · intro st n
    unfold cancel_followup fire_followup
    simp [dictGet_dictPop]
  · intro st n
    unfold cancel_long_wait_alert
    rcases h : dictGet st.long_timers n with _ | t
    · simp [h]
    · simp [h, dictGet_dictPop]
  · intro st n h
    unfold cancel_long_wait_alert
    simp [h]

/-- Witness for C9: cancelling on a state with no timer scheduled for the
customer returns the state unchanged, for both timer kinds. -/
theorem C9_witness :
    cancel_followup ⟨[], [], [], 0⟩ "X" = (⟨[], [], [], 0⟩ : FollowupState) ∧
    cancel_long_wait_alert ⟨[], [], [], 0⟩ "X" = (⟨[], [], [], 0⟩ : FollowupState) :=
  ⟨C9_idempotent_cancellation.2.1 ⟨[], [], [], 0⟩ "X" rfl,
   C9_idempotent_cancellation.2.2.2.2 ⟨[], [], [], 0⟩ "X" rfl⟩

/-- C10: whenever interpret_option_choice returns an index (for any
message, options list, price list, and any raw oracle reply), the index is
strictly below the options count; hence with index-aligned price and
option lists, both of the selection handler's lookups are in bounds. -/
theorem C10_choice_in_bounds :
    ∀ (message : String) (options : List POption) (final_prices : List ℚ)
      (llm : Option String) (i : Nat),
      interpret_option_choice message options final_prices llm = some i →
      i < options.length ∧
      (final_prices.length = options.length → i < final_prices.length) := by
  intro message options final_prices llm i h
  have hlt : i < options.length := by
    unfold interpret_option_choice at h
    simp only [] at h
    split at h
    · rename_i hmsg
      rcases hmsg with hm | hm | hm <;>
        · rw [hm] at h
          simp at h
          omega
    · split at h
      · rename_i hcond
        have hii := Option.some.inj h
        have hb := (Bool.and_eq_true _ _).mp hcond
        have hone : options.length = 1 := by simpa using hb.1
        omega
      · rcases llm with _ | raw0
        · simp at h
        · simp only [] at h
          split at h
          · simp only [Option.ite_none_right_eq_some, Option.some.injEq] at h
            obtain ⟨⟨h0, hlt2⟩, hii⟩ := h
            omega
          · exact absurd h (by simp)
  exact ⟨hlt, fun heq => heq ▸ hlt⟩

/-- Witness for C10: the exact numeric reply "1" against the single-option
quote resolves to index 0, in bounds for both lists. -/
theorem C10_witness :
    0 < optsA.length ∧ ([(150 : ℚ)].length = optsA.length → 0 < [(150 : ℚ)].length) :=
  C10_choice_in_bounds "1" optsA [150] none 0 (by decide)
